import Mathlib

/-!
Verification development for the natural-language-to-insight query pipeline
of the wops-ai repository.  The Python source under
`backend/app/db/snowflake_simple.py` and `backend/app/services/bi_service.py`
is shallowly embedded as executable Lean definitions; the theorems below
settle the frozen claims about it.

External collaborators (the Snowflake warehouse, the pandas library, the
completion capability, the json library) are modelled explicitly where a
claim depends on their behaviour; every such modelling choice is recorded
in the doc comment of the corresponding definition.
-/

/-! Part: Character and string utilities

The Python code works on `str`; we embed strings through their character
lists.  `str.upper` / `str.lower` / `str.strip` are modelled on ASCII (all
SQL text in the repository is ASCII).
-/

/-- Character-list prefix test: `matchPrefL p l = true` iff `p` is a prefix of `l`. -/
def matchPrefL : List Char → List Char → Bool
  | [], _ => true
  | _ :: _, [] => false
  | a :: as, b :: bs => a == b && matchPrefL as bs

/-- Case-insensitive character-list prefix test (ASCII fold via `Char.toLower`). -/
def matchPrefCIL : List Char → List Char → Bool
  | [], _ => true
  | _ :: _, [] => false
  | a :: as, b :: bs => a.toLower == b.toLower && matchPrefCIL as bs

/-- `containsSubL pat l = true` iff `pat` occurs as a contiguous substring of `l`.
Models the Python `in` operator on strings. -/
def containsSubL (pat : List Char) : List Char → Bool
  | [] => matchPrefL pat []
  | c :: t => matchPrefL pat (c :: t) || containsSubL pat t

/-- Python `pat in s` (substring containment). -/
def containsSub (s pat : String) : Bool := containsSubL pat.data s.data

/-- Python `str.upper()` (ASCII). -/
def strUpper (s : String) : String := ⟨s.data.map Char.toUpper⟩

/-- Python `str.lower()` (ASCII). -/
def strLower (s : String) : String := ⟨s.data.map Char.toLower⟩

/-- Whitespace trim on character lists: drop leading and trailing whitespace. -/
def trimL (l : List Char) : List Char :=
  ((l.dropWhile Char.isWhitespace).reverse.dropWhile Char.isWhitespace).reverse

/-- Python `str.strip()` (with no argument: whitespace on both ends). -/
def strTrim (s : String) : String := ⟨trimL s.data⟩

/-- Python `str.startswith(p)`. -/
def strStartsWith (s p : String) : Bool := matchPrefL p.data s.data

/-- Split a character list on newline characters; models Python `str.split('\n')`. -/
def splitNl : List Char → List (List Char)
  | [] => [[]]
  | c :: t =>
    let r := splitNl t
    if c == '\n' then [] :: r
    else
      match r with
      | h :: t2 => (c :: h) :: t2
      | [] => [[c]]

/-- First occurrence of `pat` in `l`: returns the part before the match and the
part after it, or `none` when `pat` does not occur. -/
def splitOnceL (pat : List Char) : List Char → Option (List Char × List Char)
  | [] => if matchPrefL pat [] then some ([], []) else none
  | c :: t =>
    if matchPrefL pat (c :: t) then some ([], (c :: t).drop pat.length)
    else (splitOnceL pat t).map (fun p => (c :: p.1, p.2))

/-- Case-insensitive variant of `splitOnceL`. -/
def splitOnceCIL (pat : List Char) : List Char → Option (List Char × List Char)
  | [] => if matchPrefCIL pat [] then some ([], []) else none
  | c :: t =>
    if matchPrefCIL pat (c :: t) then some ([], (c :: t).drop pat.length)
    else (splitOnceCIL pat t).map (fun p => (c :: p.1, p.2))

/-! Part: Query Safety Validator (`SimpleSnowflakeConnection.validate_query`)

The Python code checks each forbidden keyword with the regular expression
`\b<keyword>\b` over the uppercased, stripped statement.  In Python `re`,
`\b` is a word boundary: a position between a word character
(`[A-Za-z0-9_]`) and a non-word character (or the string edge).  Since the
keywords consist of word characters only, `\b<kw>\b` matches exactly at the
occurrences of `kw` that are not adjacent to a word character on either
side.  `findWholeWord` embeds that search.
-/

/-- A regex word character (`\w`): letter, digit, or underscore (ASCII). -/
def isWordChar (c : Char) : Bool := c.isAlphanum || c == '_'

/-- No word character immediately after this point (start of `post`): the `\b`
condition on the right edge of a match. -/
def noWordAfter : List Char → Bool
  | [] => true
  | c :: _ => !(isWordChar c)

/-- No word character immediately before this point (end of `pre`): the `\b`
condition on the left edge of a match. -/
def noWordBefore (pre : List Char) : Bool :=
  match pre.getLast? with
  | none => true
  | some c => !(isWordChar c)

/-- `kw` matches at the head of `l` with a word boundary on the right. -/
def matchesHere (kw l : List Char) : Bool :=
  matchPrefL kw l && noWordAfter (l.drop kw.length)

/-- Scan for a whole-word occurrence of `kw`; `prev` records whether the
character immediately before the current position is a word character
(`false` at the start of the string). -/
def findWholeWord (kw : List Char) : Bool → List Char → Bool
  | _, [] => false
  | prev, c :: cs => (!prev && matchesHere kw (c :: cs)) || findWholeWord kw (isWordChar c) cs

/-- `re.search(r'\b' + kw + r'\b', s)` is a match (as a Bool), for a keyword
`kw` made of word characters. -/
def wholeWordOccurs (kw s : String) : Bool := findWholeWord kw.data false s.data

/-- Declarative whole-word occurrence: `kw` occurs at some position `i` of `s`
with no word character adjacent on either side. -/
def wholeWordSpec (kw s : List Char) : Prop :=
  ∃ i, i ≤ s.length ∧ matchPrefL kw (s.drop i) = true ∧
    noWordBefore (s.take i) = true ∧ noWordAfter (s.drop (i + kw.length)) = true

/-- The forbidden-keyword list of `validate_query`. -/
def dangerous_keywords : List String :=
  ["DELETE", "DROP", "INSERT", "UPDATE", "ALTER", "CREATE", "TRUNCATE"]

/-- `SimpleSnowflakeConnection.validate_query`: uppercase and strip the
statement, require a `SELECT` or `WITH` prefix, and reject any statement
containing a forbidden keyword as a whole word. -/
def validate_query (query : String) : Bool :=
  let query_upper := strTrim (strUpper query)
  if !(strStartsWith query_upper ("SELECT") || strStartsWith query_upper ("WITH")) then false
  else if dangerous_keywords.any (fun kw => wholeWordOccurs kw query_upper) then false
  else true

/-! Part: Query execution row cap (`SimpleSnowflakeConnection.execute_query`)

`execute_query` rewrites the statement text before handing it to the
warehouse: when the substring `LIMIT` does not occur in the uppercased,
stripped statement it appends ` LIMIT 200` (re-attaching a trailing
semicolon when one is present); otherwise the statement is sent unchanged.
The warehouse itself is external; `warehouseRows` models it as holding
`total` matching rows and honouring a trailing `LIMIT n` clause, so the
number of rows materialised by `cursor.fetchall()` is `min total n` for a
statement ending in `LIMIT n` and `total` otherwise.
-/

/-- Leading digits of a reversed character list, with the remainder. -/
def spanDigits : List Char → List Char × List Char
  | [] => ([], [])
  | c :: t =>
    if c.isDigit then
      let p := spanDigits t
      (c :: p.1, p.2)
    else ([], c :: t)

/-- Numeric value of a digit run given in reverse order (least significant first). -/
def digitsRevToNat : List Char → Nat
  | [] => 0
  | c :: t => (c.toNat - 48) + 10 * digitsRevToNat t

/-- Word-boundary check for the position before `LIMIT`, on the reversed list. -/
def wordBoundRev : List Char → Bool
  | [] => true
  | c :: _ => !(isWordChar c)

/-- Parse a trailing `LIMIT n` clause from the reversed character list of a
statement: optional trailing whitespace, an optional semicolon, more optional
whitespace, the digits of `n`, one space, the word `LIMIT` preceded by a
non-word character or the start of the statement. -/
def parseRevLimit (l : List Char) : Option Nat :=
  let l1 := l.dropWhile Char.isWhitespace
  let l2 :=
    match l1 with
    | ';' :: t => t.dropWhile Char.isWhitespace
    | _ => l1
  match spanDigits l2 with
  | ([], _) => none
  | (ds, rest) =>
    match rest with
    | ' ' :: r2 =>
      if matchPrefL ['T', 'I', 'M', 'I', 'L'] r2 && wordBoundRev (r2.drop 5) then
        some (digitsRevToNat ds)
      else none
    | _ => none

/-- A statement ends with a `LIMIT n` clause (optionally followed by `;`). -/
def parseTrailingLimit (q : String) : Option Nat := parseRevLimit q.data.reverse

/-- The statement rewriting of `execute_query` (character-list form): append
` LIMIT 200` when the uppercased, stripped statement does not contain the
substring `LIMIT`, keeping a trailing semicolon in place. -/
def addLimit200L (q : List Char) : List Char :=
  let query_upper := trimL (q.map Char.toUpper)
  if containsSubL ("LIMIT".data) query_upper then q
  else if (trimL q).getLast? == some ';' then (trimL q).dropLast ++ " LIMIT 200;".data
  else q ++ " LIMIT 200".data

/-- The statement rewriting of `execute_query`. -/
def addLimit200 (q : String) : String := ⟨addLimit200L q.data⟩

/-- Model of the external warehouse: it holds `total` rows matching the
statement and honours a trailing `LIMIT n` clause; without one the full
result is returned. -/
def warehouseRows (total : Nat) (q : String) : Nat :=
  match parseTrailingLimit q with
  | some k => min total k
  | none => total

/-- Number of rows in the DataFrame returned by
`SimpleSnowflakeConnection.execute_query`, as a function of the warehouse
row count `total` for the statement. -/
def execute_query_rowcount (total : Nat) (q : String) : Nat :=
  warehouseRows total (addLimit200 q)

/-! Part: Metadata cache and connection gateway

`SimpleSnowflakeConnection` keeps a per-table schema cache
(`_schema_cache`), a table-list cache (`_table_list_cache`) and one shared
timestamp (`_cache_timestamp`) with a 3600-second TTL.  Time is modelled in
whole seconds as a `Nat` passed explicitly as `now`; `time.time() - ts < ttl`
on a clock that can only have advanced coincides with truncated `Nat`
subtraction.  The warehouse calls made during a refresh are modelled as
explicit arguments: `Except.error` stands for a raised exception,
`Except.ok` for a successful query result (already parsed into the shape
the surrounding Python code extracts from the cursor).
-/

/-- One column of a table schema, as built by `get_table_schema`:
declared type, nullability flag, default expression. -/
structure ColInfo where
  type : String
  nullable : Bool
  defaultVal : Option String
deriving DecidableEq

/-- `TableMetadata`: ordered mapping column name to column info
(Python dict preserves insertion order). -/
abbrev Schema := List (String × ColInfo)

/-- The mutable cache state owned by `SimpleSnowflakeConnection`. -/
structure CacheState where
  schemaCache : List (String × Schema)
  tableListCache : Option (List String)
  cacheTimestamp : Nat
deriving DecidableEq

/-- The fixed 1-hour TTL (`_cache_ttl = 3600`). -/
def cache_ttl : Nat := 3600

/-- `SimpleSnowflakeConnection._is_cache_valid`. -/
def is_cache_valid (now : Nat) (st : CacheState) : Bool :=
  now - st.cacheTimestamp < cache_ttl

/-- `SimpleSnowflakeConnection._invalidate_cache`. -/
def invalidate_cache (st : CacheState) : CacheState :=
  { st with schemaCache := [], tableListCache := none, cacheTimestamp := 0 }

/-- Association-list lookup; models `table_name in self._schema_cache` plus
the subsequent dict read. -/
def lookupA (k : String) (l : List (String × Schema)) : Option Schema :=
  (l.find? (fun e => e.1 == k)).map (fun e => e.2)

/-- Association-list update; models Python dict assignment
`self._schema_cache[table] = schema`. -/
def setA (k : String) (v : Schema) : List (String × Schema) → List (String × Schema)
  | [] => [(k, v)]
  | e :: t => if e.1 == k then (k, v) :: t else e :: setA k v t

/-- The cache-miss path of `get_table_schema`.  `describeRes` is the parsed
result of the `DESCRIBE TABLE` query (column name, type, `null?` flag,
default, as extracted by the row loop); `probeRes` is the column-name list
returned by the 1-row `SELECT *` fallback probe.  An `Except.error` value
models the corresponding query raising.  The `Bool` in the result records
that warehouse introspection was performed (at least one query issued).
On a successful `DESCRIBE` the parsed schema is cached and the shared
timestamp is reset to `now`; when it raises, the fallback probe synthesises
a schema typing every column `VARCHAR` and nullable and caches it likewise;
when both raise, the empty map is returned and the state is untouched. -/
def refresh_table_schema (describeRes : Except String Schema)
    (probeRes : Except String (List String)) (now : Nat) (tbl : String)
    (st : CacheState) : Schema × CacheState × Bool :=
  match describeRes with
  | .ok sch =>
    (sch, { st with schemaCache := setA tbl sch st.schemaCache, cacheTimestamp := now }, true)
  | .error _ =>
    match probeRes with
    | .ok cols =>
      let sch : Schema := cols.map (fun c => (c, ⟨"VARCHAR", true, none⟩))
      (sch, { st with schemaCache := setA tbl sch st.schemaCache, cacheTimestamp := now }, true)
    | .error _ => ([], st, true)

/-- `SimpleSnowflakeConnection.get_table_schema`: serve the cached schema
when the table is cached and the shared epoch is valid, otherwise refresh
via `refresh_table_schema`. -/
def get_table_schema (describeRes : Except String Schema)
    (probeRes : Except String (List String)) (now : Nat) (tbl : String)
    (st : CacheState) : Schema × CacheState × Bool :=
  match lookupA tbl st.schemaCache with
  | some sch =>
    if is_cache_valid now st then (sch, st, false)
    else refresh_table_schema describeRes probeRes now tbl st
  | none => refresh_table_schema describeRes probeRes now tbl st

/-- The fixed candidate table list of `get_available_tables`. -/
def allowed_tables : List String :=
  ["RPT_WOPS_AGENT_PERFORMANCE",
   "ZENDESK_TICKET_AGENT__HANDLE_TIME",
   "RPT_WOPS_TICKETS",
   "RPT_WOPS_TL_PERFORMANCE",
   "RPT_AGENT_SCHEDULE_ADHERENCE"]

/-- `SimpleSnowflakeConnection.get_available_tables`.  `probe t` models the
1-row existence probe `SELECT 1 FROM db.schema.t LIMIT 1`: `true` when it
succeeds, `false` when it raises (each probe failure is caught inside the
per-table loop and the table is skipped).  On a cache miss the surviving
tables are cached and the shared timestamp is reset to `now`.  The outer
exception handler of the Python function (which would return the candidate
list unverified) is reachable only by an exception raised outside the
per-table probes, which no step of the loop body can produce, so it has no
counterpart here. -/
def get_available_tables (probe : String → Bool) (now : Nat) (st : CacheState) :
    List String × CacheState :=
  match st.tableListCache with
  | some l =>
    if is_cache_valid now st then (l, st)
    else
      let existing := allowed_tables.filter probe
      (existing, { st with tableListCache := some existing, cacheTimestamp := now })
  | none =>
    let existing := allowed_tables.filter probe
    (existing, { st with tableListCache := some existing, cacheTimestamp := now })

/-- The cache state right after `__init__`. -/
def initCacheState : CacheState := ⟨[], none, 0⟩

/-! Part: Ordered Sampler (`SimpleSnowflakeConnection.get_table_sample_ordered`)

The column-selection logic scans a fixed priority list of audit-column name
patterns (pattern-major: all schema columns are tried for the first
pattern, then for the second, ...), and falls back to the first column
whose declared type contains a date/time keyword.
-/

/-- The fixed audit/timestamp name-pattern priority list. -/
def audit_patterns : List String :=
  ["CREATED_AT", "UPDATED_AT", "CREATED_DATE", "UPDATED_DATE",
   "TIMESTAMP", "DATE_CREATED", "DATE_UPDATED", "AUDIT_DATE",
   "CREATED_TIME", "UPDATED_TIME", "LAST_MODIFIED", "RECORD_DATE",
   "ETL_TIMESTAMP", "LOAD_DATE", "SOLVED_WEEK", "ADHERENCE_DATE"]

/-- Date/time keywords searched in a declared column type. -/
def date_type_keywords : List String := ["DATE", "TIMESTAMP", "TIME"]

/-- The order-column choice of `get_table_sample_ordered`: first, for each
pattern in priority order, the first schema column whose uppercased name
contains the pattern; if none, the first column whose uppercased declared
type contains `DATE`, `TIMESTAMP` or `TIME`; otherwise none. -/
def pickOrderColumn (schema : Schema) : Option String :=
  match audit_patterns.findSome?
      (fun pat => (schema.find? (fun e => containsSub (strUpper e.1) pat)).map (fun e => e.1)) with
  | some c => some c
  | none =>
    (schema.find? (fun e =>
      date_type_keywords.any (fun d => containsSub (strUpper e.2.type) d))).map (fun e => e.1)

/-- The statement built by `get_table_sample_ordered`: an `ORDER BY <col>
DESC LIMIT <n>` scan when an order column was found, the plain limited scan
otherwise.  The incidental indentation and line breaks of the Python
triple-quoted string literal are normalised to single spaces. -/
def get_table_sample_ordered_query (db sch tbl : String) (lim : Nat) (schema : Schema) : String :=
  match pickOrderColumn schema with
  | some c =>
    "SELECT * FROM " ++ db ++ "." ++ sch ++ "." ++ tbl ++
      " ORDER BY " ++ c ++ " DESC LIMIT " ++ toString lim
  | none =>
    "SELECT * FROM " ++ db ++ "." ++ sch ++ "." ++ tbl ++ " LIMIT " ++ toString lim

/-! Part: Result cleaning (`BIService._clean_dataframe_for_json`)

A DataFrame is modelled column-wise.  Cell values distinguish integers,
floats (with explicit `nan` / `+inf` / `-inf` values), strings and the
Python `None`; a column carries its pandas dtype class (`object`, integer,
or floating).  Every step of `_clean_dataframe_for_json` acts cell-wise:

* `df.replace([np.inf, -np.inf], np.nan)` turns both infinities into `nan`;
* for an `object` column, `.astype(str)` renders every cell with Python
  `str()` (so a float `nan` renders as the string `nan` and `None` renders
  as the string `None`), and `.replace('nan', None)` maps the exact string
  `nan` to `None` (the replacement the code states in its comment);
* integer and floating columns are cast to the nullable `Int64` / `Float64`
  dtypes, which keeps values and missing markers;
* the final `df.where(pd.notnull(df), None)` turns every remaining missing
  marker (`nan` / `NA`) into `None`.
-/

/-- A float value: finite (the numeric payload is immaterial to the claims
and carried as a rational), not-a-number, or a signed infinity. -/
inductive FNum where
  | fnum (q : ℚ)
  | fnan
  | finf
  | fninf
deriving DecidableEq

/-- A cell value of a raw result DataFrame. -/
inductive Val where
  | vint (n : ℤ)
  | vfloat (x : FNum)
  | vstr (s : String)
  | vnull
deriving DecidableEq

/-- The pandas dtype class of a column. -/
inductive DType where
  | dObj
  | dInt
  | dFloat
deriving DecidableEq

/-- A named, typed column of a DataFrame. -/
structure DFColumn where
  name : String
  dtype : DType
  values : List Val
deriving DecidableEq

/-- A DataFrame, column-wise. -/
abbrev DataFrame := List DFColumn

/-- `df.replace([np.inf, -np.inf], np.nan)`, cell-wise. -/
def replaceInfCell (v : Val) : Val :=
  match v with
  | .vfloat .finf => .vfloat .fnan
  | .vfloat .fninf => .vfloat .fnan
  | v => v

/-- Python `str()` rendering of a cell, as applied by `.astype(str)` on an
`object` column.  The exact text of a finite float is immaterial to the
claims; `nan` renders as `nan` and `None` as `None`, which is what the
cleaning logic depends on. -/
def strOfVal (v : Val) : String :=
  match v with
  | .vstr s => s
  | .vint n => toString n
  | .vfloat (.fnum q) => toString q
  | .vfloat .fnan => "nan"
  | .vfloat .finf => "inf"
  | .vfloat .fninf => "-inf"
  | .vnull => "None"

/-- `object` column handling: `.astype(str).replace('nan', None)`. -/
def objCell (v : Val) : Val :=
  let s := strOfVal v
  if s == "nan" then .vnull else .vstr s

/-- Final `df.where(pd.notnull(df), None)`: remaining missing markers become
`None`. -/
def finalCell (v : Val) : Val :=
  match v with
  | .vfloat .fnan => .vnull
  | .vnull => .vnull
  | v => v

/-- The whole cleaning pipeline on one cell of a column with dtype `dt`.
The `Int64` / `Float64` casts keep cell values (a numeric missing marker is
handled by `finalCell`). -/
def cleanCell (dt : DType) (v : Val) : Val :=
  let v1 := replaceInfCell v
  let v2 :=
    match dt with
    | .dObj => objCell v1
    | .dInt => v1
    | .dFloat => v1
  finalCell v2

/-- `BIService._clean_dataframe_for_json`. -/
def clean_dataframe_for_json (df : DataFrame) : DataFrame :=
  df.map (fun col => { col with values := col.values.map (cleanCell col.dtype) })

/-- A cell is JSON-safe: serialising it can emit no `NaN` / `Infinity` /
`-Infinity` token (those tokens arise exactly from non-finite float
values). -/
def isJsonSafe (v : Val) : Bool :=
  match v with
  | .vfloat .fnan => false
  | .vfloat .finf => false
  | .vfloat .fninf => false
  | _ => true

/-- A missing-value marker or infinity in a raw cell. -/
def isMissingMarker (v : Val) : Bool :=
  match v with
  | .vfloat .fnan => true
  | .vfloat .finf => true
  | .vfloat .fninf => true
  | .vnull => true
  | _ => false

/-- All cells of a DataFrame. -/
def dfCells (df : DataFrame) : List Val := df.flatMap (fun c => c.values)

/-! Part: Chart Synthesizer (`BIService.should_generate_charts` /
`BIService.generate_charts_from_data`)

Charts are generated from a cleaned DataFrame.  `select_dtypes` classifies
columns by dtype class: `np.number` selects integer and floating columns,
`object` the text columns.  `groupby(col)[metric].mean()` is modelled as:
group the rows by the value in `col`, and average the numeric cells of
`metric` in each group, ignoring missing values as pandas does (a group
with no numeric value would be `NaN` in pandas; it is rendered as `0` here,
which no claim depends on).  Group keys are listed in first-appearance
order (pandas sorts them; only the multiset of groups matters to the
claims proved below).  `value_counts()` sorts categories by descending
count (ties in first-appearance order).
-/

/-- An exact fraction (numerator over denominator, not normalised), the
number representation used for chart values: group means are exact
fractions, and keeping them unnormalised lets every computation reduce
structurally.  All denominators arising below are positive. -/
structure Frac where
  num : ℤ
  den : ℤ
deriving DecidableEq

/-- Fraction addition (no normalisation). -/
def fadd (a b : Frac) : Frac := ⟨a.num * b.den + b.num * a.den, a.den * b.den⟩

/-- Divide a fraction by a positive natural number. -/
def fdivNat (a : Frac) (n : Nat) : Frac := ⟨a.num, a.den * (n : ℤ)⟩

/-- Strictly-greater comparison of fractions with positive denominators,
by cross multiplication. -/
def fgt (a b : Frac) : Bool := decide (b.num * a.den < a.num * b.den)

/-- A chart specification: kind (`line` / `bar` / `doughnut`), title, labels,
and the single data series the code emits per chart. -/
structure Chart where
  type : String
  title : String
  labels : List String
  dataValues : List Frac
  datasetLabel : String
deriving DecidableEq

/-- Numeric value of a cell for aggregation; missing (`nan` / `None`) and
non-numeric cells yield `none` and are skipped by `mean`. -/
def toNumVal : Val → Option Frac
  | .vint n => some ⟨n, 1⟩
  | .vfloat (.fnum q) => some ⟨q.num, (q.den : ℤ)⟩
  | _ => none

/-- Distinct values of a list in first-appearance order. -/
def dedupVals (l : List Val) : List Val :=
  l.foldl (fun acc v => if acc.any (fun a => a == v) then acc else acc ++ [v]) []

/-- `groupby(keys)[vals].mean()`: one entry per distinct key, carrying the
mean of the numeric values of its group (missing values skipped; a group
with no numeric value would be `NaN` in pandas and is rendered as `0`
here, which no proved claim depends on). -/
def groupMeans (keys vals : List Val) : List (Val × Frac) :=
  let pairs := keys.zip vals
  (dedupVals keys).map (fun k =>
    let nums := (pairs.filter (fun p => p.1 == k)).filterMap (fun p => toNumVal p.2)
    (k, if nums.isEmpty then ⟨0, 1⟩ else fdivNat (nums.foldl fadd ⟨0, 1⟩) nums.length))

/-- `series.value_counts()`: occurrence count per distinct value, sorted by
descending count. -/
def insertByCountDesc (x : Val × Nat) : List (Val × Nat) → List (Val × Nat)
  | [] => [x]
  | y :: t => if x.2 > y.2 then x :: y :: t else y :: insertByCountDesc x t

/-- Stable descending sort of `(value, count)` pairs by count. -/
def sortByCountDesc (l : List (Val × Nat)) : List (Val × Nat) :=
  l.foldr insertByCountDesc []

/-- `series.value_counts()`. -/
def valueCounts (l : List Val) : List (Val × Nat) :=
  sortByCountDesc ((dedupVals l).map (fun k => (k, (l.filter (fun v => v == k)).length)))

/-- Stable descending insertion by the mean value, for
`sort_values(ascending=False)`. -/
def insertByMeanDesc (x : Val × Frac) : List (Val × Frac) → List (Val × Frac)
  | [] => [x]
  | y :: t => if fgt x.2 y.2 then x :: y :: t else y :: insertByMeanDesc x t

/-- `sort_values(ascending=False)` on grouped means. -/
def sortByMeanDesc (l : List (Val × Frac)) : List (Val × Frac) :=
  l.foldr insertByMeanDesc []

/-- Number of rows of a column-wise DataFrame (`len(data)`). -/
def rowCount (df : DataFrame) : Nat :=
  match df with
  | [] => 0
  | c :: _ => c.values.length

/-- Values of the named column (empty when the column is absent). -/
def colValues (df : DataFrame) (name : String) : List Val :=
  match df.find? (fun c => c.name == name) with
  | some c => c.values
  | none => []

/-- `data.head(n)` on a column-wise DataFrame. -/
def dfHead (n : Nat) (df : DataFrame) : DataFrame :=
  df.map (fun c => { c with values := c.values.take n })

/-- Name keywords marking a date/time column in `_generate_trend_charts`. -/
def date_name_keywords : List String := ["DATE", "TIME", "WEEK", "MONTH", "DAY"]

/-- `BIService._generate_trend_charts`: for the first date/time-named
column, a line chart per metric (up to 2) whenever grouping by the date
column leaves at least 2 buckets. -/
def generate_trend_charts (df : DataFrame) (numericCols : List String) : List Chart :=
  let dateCols := (df.filter (fun c =>
    date_name_keywords.any (fun k => containsSub (strUpper c.name) k))).map (fun c => c.name)
  match dateCols with
  | [] => []
  | dateCol :: _ =>
    (numericCols.take 2).filterMap (fun nc =>
      let td := groupMeans (colValues df dateCol) (colValues df nc)
      if td.length ≥ 2 then
        some ⟨"line", nc ++ " Trend Over Time",
              td.map (fun p => strOfVal p.1), td.map (fun p => p.2), nc⟩
      else none)

/-- `BIService._generate_comparison_charts`: for the first categorical
column, a bar chart per metric (up to 2) over the top-10 categories by
mean, whenever at least 2 categories remain. -/
def generate_comparison_charts (df : DataFrame) (numericCols categoricalCols : List String) :
    List Chart :=
  match categoricalCols with
  | [] => []
  | catCol :: _ =>
    (numericCols.take 2).filterMap (fun nc =>
      let cd := sortByMeanDesc (groupMeans (colValues df catCol) (colValues df nc))
      let top := cd.take 10
      if top.length ≥ 2 then
        some ⟨"bar", nc ++ " by " ++ catCol,
              top.map (fun p => strOfVal p.1), top.map (fun p => p.2), nc⟩
      else none)

/-- `BIService._generate_distribution_charts`: only for results of at most
20 rows with a categorical column; one doughnut chart over the top-8
categories by count, whenever at least 2 categories remain. -/
def generate_distribution_charts (df : DataFrame) (categoricalCols : List String) :
    List Chart :=
  match categoricalCols with
  | [] => []
  | catCol :: _ =>
    if rowCount df ≤ 20 then
      let dist := (valueCounts (colValues df catCol)).take 8
      if dist.length ≥ 2 then
        [⟨"doughnut", "Distribution by " ++ catCol,
          dist.map (fun p => strOfVal p.1),
          dist.map (fun p => (⟨(p.2 : ℤ), 1⟩ : Frac)), "Count"⟩]
      else []
    else []

/-- `BIService.generate_charts_from_data`: cap the input to its first 50
rows, classify columns, concatenate the three generators and keep the
first 3 charts. -/
def generate_charts_from_data (df : DataFrame) : List Chart :=
  if rowCount df = 0 then []
  else
    let ds := dfHead 50 df
    let numericCols := (ds.filter (fun c => c.dtype != DType.dObj)).map (fun c => c.name)
    let catCols := (ds.filter (fun c => c.dtype == DType.dObj)).map (fun c => c.name)
    (generate_trend_charts ds numericCols ++
     generate_comparison_charts ds numericCols catCols ++
     generate_distribution_charts ds catCols).take 3

/-- The visualisation keyword list of `should_generate_charts`. -/
def chart_keywords : List String :=
  ["trend", "trends", "trending", "over time", "timeline",
   "compare", "comparison", "versus", "vs", "against",
   "top", "bottom", "highest", "lowest", "best", "worst",
   "distribution", "breakdown", "split", "by",
   "chart", "graph", "plot", "visualize", "show",
   "performance", "productivity", "efficiency",
   "weekly", "monthly", "daily", "quarterly",
   "growth", "decline", "increase", "decrease"]

/-- `BIService.should_generate_charts`: at least 2 rows, a visualisation
keyword in the lowercased question, a numeric column, and at least 2
columns. -/
def should_generate_charts (user_query : String) (df : DataFrame) : Bool :=
  if rowCount df < 2 then false
  else
    (chart_keywords.any (fun k => containsSub (strLower user_query) k)) &&
    ((df.filter (fun c => c.dtype != DType.dObj)).length > 0) &&
    (df.length ≥ 2)

/-! Part: Query Orchestrator (`BIService._parse_ai_response` /
`BIService.process_natural_language_query`)

`_parse_ai_response` has a JSON fast path (a response whose stripped text
starts with a brace is handed to `json.loads` and returned verbatim); that
external-library path is outside the model.  The modelled path is the
fallback used for free-text responses: extract the first fenced
```sql ...``` block (regex ` ```sql\s*\n(.*?)\n``` ` with DOTALL and
IGNORECASE), else scan the lines for the first one starting with `SELECT`
or `WITH`; the whole stripped response becomes the explanation.

The result dictionary of `process_natural_language_query` is modelled as a
record with one `Option` field per key the code may or may not set: `none`
models an absent key (Python `result.get(k)` returning `None`), `some`
models a present key.
-/

/-- The parsed `CandidateQuery` shape produced by `_parse_ai_response`. -/
structure ParseResult where
  sql_query : Option String
  explanation : String
  business_context : String
  expected_insights : List String
deriving DecidableEq

/-- The first fenced SQL block of a response, per the regex
` ```sql\s*\n(.*?)\n``` ` (DOTALL, IGNORECASE): after the (case-insensitive)
opening fence, a whitespace run containing a newline, then the block up to
the first `\n` + three backticks; the block is stripped.  `none` when the
response has no such fence. -/
def extract_sql_block (response : String) : Option String :=
  match splitOnceCIL ("```sql".data) response.data with
  | none => none
  | some (_, rest) =>
    if (rest.takeWhile Char.isWhitespace).any (fun c => c == '\n') then
      match splitOnceL [Char.ofNat 10, Char.ofNat 96, Char.ofNat 96, Char.ofNat 96]
          (rest.dropWhile Char.isWhitespace) with
      | some (content, _) => some (strTrim ⟨content⟩)
      | none => none
    else none

/-- The line scan of `_parse_ai_response`: the first stripped line whose
uppercased text starts with `SELECT` or `WITH`. -/
def extract_sql_line (response : String) : Option String :=
  ((splitNl response.data).map (fun l => (⟨trimL l⟩ : String))).find?
    (fun line => strStartsWith (strUpper line) "SELECT" || strStartsWith (strUpper line) "WITH")

/-- `BIService._parse_ai_response`, fallback (non-JSON) path: fenced SQL
block first, else line scan; the stripped response is the explanation, the
business context defaults to a fixed placeholder and the expected insights
to the empty list. -/
def parse_ai_response (response : String) : ParseResult :=
  let sql :=
    match extract_sql_block response with
    | some b => some b
    | none => extract_sql_line response
  { sql_query := sql
    explanation := strTrim response
    business_context := "Analysis requested by user"
    expected_insights := [] }

/-- The answer dictionary returned by `process_natural_language_query`; a
`none` field models an absent dictionary key. -/
structure BIResult where
  sql_query : Option String
  explanation : String
  business_context : String
  expected_insights : List String
  data : Option (List (List Val))
  row_count : Option Nat
  columns : Option (List String)
  insights : Option (List String)
  success : Option Bool
  error : Option String
deriving DecidableEq

/-- Outcome of `_execute_and_analyze_query` for a present SQL query:
either the failure dictionary (validation rejected or execution raised),
or the success dictionary with the cleaned rows, the column list and the
generated insights. -/
inductive ExecOutcome where
  | failed (err : String)
  | ok (rows : List (List Val)) (columns : List String) (insights : List String)

/-- The post-parse portion of `process_natural_language_query` (lines
86-110): when the parsed result carries a SQL query, execute it and merge
the outcome dictionary into the result (`result.update(query_result)`);
when it does not, the parse dictionary is returned as is — in particular
no `data`, `row_count`, `success` or `error` key is ever added on that
path.  Chart generation only further extends the success dictionary and is
settled separately (`generate_charts_from_data`). -/
def process_after_parse (exec : ExecOutcome) (parsed : ParseResult) : BIResult :=
  let base : BIResult :=
    { sql_query := parsed.sql_query
      explanation := parsed.explanation
      business_context := parsed.business_context
      expected_insights := parsed.expected_insights
      data := none
      row_count := none
      columns := none
      insights := none
      success := none
      error := none }
  match parsed.sql_query with
  | some _ =>
    match exec with
    | .failed e => { base with error := some e, success := some false }
    | .ok rows cols ins =>
      { base with data := some rows, row_count := some rows.length,
                  columns := some cols, insights := some ins, success := some true }
  | none => base

/-- `wholeWordSpec` is decidable: the position `i` is bounded by the string
length. -/
instance wholeWordSpec.instDecidable (kw s : List Char) : Decidable (wholeWordSpec kw s) :=
  decidable_of_iff ((List.range (s.length + 1)).any (fun i =>
      matchPrefL kw (s.drop i) && noWordBefore (s.take i) &&
        noWordAfter (s.drop (i + kw.length))) = true)
    (by simp [wholeWordSpec, List.any_eq_true, List.mem_range, Nat.lt_succ_iff, and_assoc])

/-! Part: concrete demonstration data used by witnesses and counterexamples -/

/-- A one-column schema for the agent-performance table. -/
def demoSchemaA : Schema := [("NUM_TICKETS", ⟨"NUMBER", true, none⟩)]

/-- A refreshed variant of `demoSchemaA`, as a later introspection could
return it. -/
def demoSchemaA2 : Schema := [("NUM_TICKETS", ⟨"NUMBER", false, none⟩)]

/-- A one-column schema for the tickets table. -/
def demoSchemaB : Schema := [("SOLVED_WEEK", ⟨"DATE", true, none⟩)]

/-- A cache state whose schema cache holds metadata for two tables, filled
at time 0. -/
def demoCacheState : CacheState :=
  ⟨[("RPT_WOPS_AGENT_PERFORMANCE", demoSchemaA), ("RPT_WOPS_TICKETS", demoSchemaB)], none, 0⟩

/-- The C7 scenario schema: columns `SOLVED_WEEK` and `AHT_MINUTES`. -/
def demoSchemaC : Schema :=
  [("SOLVED_WEEK", ⟨"VARCHAR", true, none⟩), ("AHT_MINUTES", ⟨"NUMBER", true, none⟩)]

/-- A schema with no audit-pattern name but a timestamp-typed column. -/
def demoSchemaD : Schema :=
  [("AHT_MINUTES", ⟨"NUMBER", true, none⟩), ("WINDOW_START", ⟨"TIMESTAMP_NTZ", true, none⟩)]

/-- A schema with neither an audit-pattern name nor a date-typed column. -/
def demoSchemaE : Schema := [("AGENT_NAME", ⟨"VARCHAR", true, none⟩)]

/-- The C9 scenario result: 5 rows with a text column `REGION` and an
integer column `COUNT`. -/
def regionCountDF : DataFrame :=
  [⟨"REGION", .dObj,
    [.vstr "NORTH", .vstr "SOUTH", .vstr "EAST", .vstr "WEST", .vstr "CENTRAL"]⟩,
   ⟨"COUNT", .dInt, [.vint 10, .vint 7, .vint 5, .vint 3, .vint 2]⟩]

/-! Part: supporting lemmas -/

/-- `noWordBefore` on a nonempty list looks only at the final character. -/
theorem noWordBefore_cons (c : Char) (t : List Char) :
    noWordBefore (c :: t) = if t = [] then !(isWordChar c) else noWordBefore t := by
  cases t with
  | nil => simp [noWordBefore]
  | cons x xs => simp [noWordBefore, List.getLast?_cons_cons]

/-- The regex scan `findWholeWord` finds exactly the boundary-respecting
occurrences, position by position; `prev` stands for the word-character
status of the character just before the scanned segment. -/
theorem findWholeWord_iff (kw : List Char) (hkw : kw ≠ []) :
    ∀ (l : List Char) (prev : Bool),
      findWholeWord kw prev l = true ↔
        ∃ i, i ≤ l.length ∧ matchPrefL kw (l.drop i) = true ∧
          (if i = 0 then prev = false else noWordBefore (l.take i) = true) ∧
          noWordAfter (l.drop (i + kw.length)) = true := by
  intro l
  induction l with
  | nil =>
    intro prev
    constructor
    · intro h
      simp [findWholeWord] at h
    · rintro ⟨i, hi, hm, -, -⟩
      have hi0 : i = 0 := Nat.le_zero.mp hi
      subst hi0
      cases kw with
      | nil => exact absurd rfl hkw
      | cons a as => simp [matchPrefL] at hm
  | cons c cs ih =>
    intro prev
    have hstep : findWholeWord kw prev (c :: cs) =
        ((!prev && matchesHere kw (c :: cs)) || findWholeWord kw (isWordChar c) cs) := rfl
    rw [hstep, Bool.or_eq_true, Bool.and_eq_true, ih (isWordChar c)]
    constructor
    · rintro (⟨hprev, hm⟩ | ⟨j, hj, hm, hcond, hafter⟩)
      · rw [matchesHere, Bool.and_eq_true] at hm
        refine ⟨0, Nat.zero_le _, ?_, ?_, ?_⟩
        · simpa using hm.1
        · simpa using hprev
        · simpa using hm.2
      · refine ⟨j + 1, by simpa using Nat.succ_le_succ hj, ?_, ?_, ?_⟩
        · simpa [List.drop_succ_cons] using hm
        · have hne : j + 1 ≠ 0 := Nat.succ_ne_zero j
          simp only [hne, if_false, List.take_succ_cons, noWordBefore_cons]
          by_cases hj0 : j = 0
          · subst hj0
            simp only [List.take_zero, if_pos rfl]
            have h := (by simpa using hcond : isWordChar c = false)
            simp [h]
          · have htk : cs.take j ≠ [] := by
              intro habs
              rcases List.take_eq_nil_iff.mp habs with h | h
              · exact hj0 h
              · subst h
                simp at hj
                exact hj0 hj
            simp only [htk, if_false]
            simpa [hj0] using hcond
        · have : j + 1 + kw.length = (j + kw.length) + 1 := by omega
          rw [this, List.drop_succ_cons]
          exact hafter
    · rintro ⟨i, hi, hm, hcond, hafter⟩
      cases i with
      | zero =>
        left
        have h : prev = false := by simpa using hcond
        refine ⟨by simp [h], ?_⟩
        rw [matchesHere, Bool.and_eq_true]
        exact ⟨by simpa using hm, by simpa using hafter⟩
      | succ j =>
        right
        refine ⟨j, by simpa using Nat.le_of_succ_le_succ hi, ?_, ?_, ?_⟩
        · simpa [List.drop_succ_cons] using hm
        · have hne : j + 1 ≠ 0 := Nat.succ_ne_zero j
          simp only [hne, if_false, List.take_succ_cons, noWordBefore_cons] at hcond
          by_cases hj0 : j = 0
          · subst hj0
            simp only [List.take_zero, if_pos rfl] at hcond
            simpa using hcond
          · have htk : cs.take j ≠ [] := by
              intro habs
              rcases List.take_eq_nil_iff.mp habs with h | h
              · exact hj0 h
              · subst h
                simp at hi
                omega
            simp only [htk, if_false] at hcond
            simpa [hj0] using hcond
        · have : j + 1 + kw.length = (j + kw.length) + 1 := by omega
          rw [this, List.drop_succ_cons] at hafter
          exact hafter

/-- The Bool regex search agrees with the declarative whole-word property. -/
theorem wholeWordOccurs_iff (kw s : String) (hkw : kw.data ≠ []) :
    wholeWordOccurs kw s = true ↔ wholeWordSpec kw.data s.data := by
  rw [wholeWordOccurs, wholeWordSpec, findWholeWord_iff kw.data hkw s.data false]
  constructor <;> rintro ⟨i, hi, hm, hcond, hafter⟩ <;> refine ⟨i, hi, hm, ?_, hafter⟩
  · cases i with
    | zero => simp [noWordBefore]
    | succ j => simpa using hcond
  · cases i with
    | zero => simp
    | succ j => simpa using hcond

/-! Part: Claim theorems -/

/-- C2: for every SQL string that, after trimming, begins with `SELECT` or
`WITH` and in which no forbidden keyword has a whole-word occurrence (each
occurrence, if any, sits inside a longer identifier, i.e. touches a word
character), `validate_query` returns true; and for every SQL string in
which some forbidden keyword occurs as a standalone whole word,
`validate_query` returns false. -/
theorem validate_query_word_boundary (q : String) :
    ((strStartsWith (strTrim (strUpper q)) ("SELECT") = true ∨
        strStartsWith (strTrim (strUpper q)) ("WITH") = true) →
      (∀ kw ∈ dangerous_keywords, ¬ wholeWordSpec kw.data (strTrim (strUpper q)).data) →
      validate_query q = true)
    ∧
    (∀ kw ∈ dangerous_keywords, wholeWordSpec kw.data (strTrim (strUpper q)).data →
      validate_query q = false) := by
  have hne : ∀ kw ∈ dangerous_keywords, kw.data ≠ [] := by decide
  constructor
  · intro hpre hno
    have h1 : (strStartsWith (strTrim (strUpper q)) ("SELECT") ||
        strStartsWith (strTrim (strUpper q)) ("WITH")) = true := by
      rcases hpre with h | h <;> simp [h]
    have h2 : dangerous_keywords.any
        (fun kw => wholeWordOccurs kw (strTrim (strUpper q))) = false := by
      rw [List.any_eq_false]
      intro kw hkw
      intro habs
      exact hno kw hkw ((wholeWordOccurs_iff kw _ (hne kw hkw)).mp habs)
    simp [validate_query, h1, h2]
  · intro kw hkw hspec
    have hocc : wholeWordOccurs kw (strTrim (strUpper q)) = true :=
      (wholeWordOccurs_iff kw _ (hne kw hkw)).mpr hspec
    have hany : dangerous_keywords.any
        (fun k => wholeWordOccurs k (strTrim (strUpper q))) = true :=
      List.any_eq_true.mpr ⟨kw, hkw, hocc⟩
    by_cases h : (strStartsWith (strTrim (strUpper q)) ("SELECT") ||
        strStartsWith (strTrim (strUpper q)) ("WITH")) = true
    · simp [validate_query, h, hany]
    · simp only [Bool.not_eq_true] at h
      simp [validate_query, h, hany]

/-- Witness for C2: a query whose only `UPDATE` sits inside the identifier
`UPDATED_AT` passes, a standalone `UPDATE` statement is rejected. -/
theorem validate_query_word_boundary_witness :
    validate_query ("SELECT UPDATED_AT FROM T") = true ∧
    validate_query ("UPDATE T SET X = 1") = false :=
  ⟨(validate_query_word_boundary ("SELECT UPDATED_AT FROM T")).1 (by decide) (by decide),
   (validate_query_word_boundary ("UPDATE T SET X = 1")).2 ("UPDATE") (by decide) (by decide)⟩

/-- C6: every input whose trimmed, uppercased text starts with neither
`SELECT` nor `WITH` is rejected by `validate_query`, whatever the rest of
the string contains. -/
theorem validate_query_rejects_non_select (q : String)
    (h1 : strStartsWith (strTrim (strUpper q)) ("SELECT") = false)
    (h2 : strStartsWith (strTrim (strUpper q)) ("WITH") = false) :
    validate_query q = false := by
  simp [validate_query, h1, h2]

/-- Witness for C6: the scenario from the specification, a statement that
smuggles a `SELECT` after a `DROP`, is rejected. -/
theorem validate_query_rejects_non_select_witness :
    validate_query ("DROP TABLE RPT_WOPS_TICKETS; SELECT 1") = false :=
  validate_query_rejects_non_select ("DROP TABLE RPT_WOPS_TICKETS; SELECT 1")
    (by decide) (by decide)

/-- Parsing the reversed text of any statement ending in ` LIMIT 200`
yields the limit 200, whatever precedes it. -/
theorem parseRevLimit_limit200 (rest : List Char) :
    parseRevLimit
      ('0' :: '0' :: '2' :: ' ' :: 'T' :: 'I' :: 'M' :: 'I' :: 'L' :: ' ' :: rest) =
      some 200 := rfl

/-- Parsing the reversed text of any statement ending in ` LIMIT 200;`
yields the limit 200, whatever precedes it. -/
theorem parseRevLimit_limit200_semi (rest : List Char) :
    parseRevLimit
      (';' :: '0' :: '0' :: '2' :: ' ' :: 'T' :: 'I' :: 'M' :: 'I' :: 'L' :: ' ' :: rest) =
      some 200 := rfl

/-- Appending ` LIMIT 200` produces a statement whose trailing limit parses
as 200. -/
theorem parseRevLimit_append (q : List Char) :
    parseRevLimit
      ((q ++ [' ', 'L', 'I', 'M', 'I', 'T', ' ', '2', '0', '0']).reverse) = some 200 := by
  rw [List.reverse_append]
  rw [show ([' ', 'L', 'I', 'M', 'I', 'T', ' ', '2', '0', '0'] : List Char).reverse =
      ['0', '0', '2', ' ', 'T', 'I', 'M', 'I', 'L', ' '] from rfl]
  simp only [List.cons_append, List.nil_append]
  exact parseRevLimit_limit200 q.reverse

/-- Appending ` LIMIT 200;` produces a statement whose trailing limit
parses as 200. -/
theorem parseRevLimit_append_semi (q : List Char) :
    parseRevLimit
      ((q ++ [' ', 'L', 'I', 'M', 'I', 'T', ' ', '2', '0', '0', ';']).reverse) = some 200 := by
  rw [List.reverse_append]
  rw [show ([' ', 'L', 'I', 'M', 'I', 'T', ' ', '2', '0', '0', ';'] : List Char).reverse =
      [';', '0', '0', '2', ' ', 'T', 'I', 'M', 'I', 'L', ' '] from rfl]
  simp only [List.cons_append, List.nil_append]
  exact parseRevLimit_limit200_semi q.reverse

/-- C1 counterexample: a statement that already carries `LIMIT 1000` is
sent to the warehouse unchanged by `execute_query`, so the returned result
holds up to 1000 rows — more than the claimed 200-row cap. -/
theorem execute_query_rowcount_counterexample :
    execute_query_rowcount 1000 ("SELECT * FROM RPT_WOPS_TICKETS LIMIT 1000") = 1000 ∧
    ¬ execute_query_rowcount 1000 ("SELECT * FROM RPT_WOPS_TICKETS LIMIT 1000") ≤ 200 := by
  constructor
  · rfl
  · decide

/-- C1 (amended): for every statement in which the substring `LIMIT` does
not occur (uppercased, stripped), `execute_query` appends ` LIMIT 200` and
the returned result holds at most 200 rows; a statement already carrying a
`LIMIT` is executed unchanged. -/
theorem execute_query_rowcount_le_200 (total : Nat) (q : String)
    (h : containsSub (strTrim (strUpper q)) ("LIMIT") = false) :
    execute_query_rowcount total q ≤ 200 := by
  have h2 : containsSubL ("LIMIT".data) (trimL (q.data.map Char.toUpper)) = false := h
  rw [execute_query_rowcount, warehouseRows, parseTrailingLimit]
  rw [show (addLimit200 q).data = addLimit200L q.data from rfl]
  rw [addLimit200L]
  simp only [h2, Bool.false_eq_true, if_false]
  by_cases hs : ((trimL q.data).getLast? == some ';') = true
  · simp only [hs, if_true, parseRevLimit_append_semi]
    exact Nat.min_le_right total 200
  · simp only [Bool.not_eq_true] at hs
    simp only [hs, Bool.false_eq_true, if_false, parseRevLimit_append]
    exact Nat.min_le_right total 200

/-- Witness for C1 (amended): the scenario query from the specification,
which carries no `LIMIT`, comes back with at most 200 rows even from a
warehouse holding 1000 matching rows. -/
theorem execute_query_rowcount_le_200_witness :
    execute_query_rowcount 1000
      ("SELECT AGENT_NAME, ADHERENCE_PERCENTAGE FROM RPT_AGENT_SCHEDULE_ADHERENCE") ≤ 200 :=
  execute_query_rowcount_le_200 1000
    ("SELECT AGENT_NAME, ADHERENCE_PERCENTAGE FROM RPT_AGENT_SCHEDULE_ADHERENCE")
    (by decide)

/-- C3 counterexample: with the shared epoch expired (filled at time 0,
read at time 3600), a metadata read for the performance table triggers a
refresh that resets the shared timestamp to 3600; an immediately following
read for the tickets table is then served its pre-expiry cached metadata
(`demoSchemaB`, cached under the expired epoch) with no introspection at
all — both introspection arguments are failing, so none can have been
consulted. -/
theorem cache_epoch_counterexample :
    is_cache_valid 3600 demoCacheState = false ∧
    (get_table_schema (Except.error "") (Except.error "") 3601 ("RPT_WOPS_TICKETS")
      (get_table_schema (Except.ok demoSchemaA2) (Except.error "") 3600
        ("RPT_WOPS_AGENT_PERFORMANCE") demoCacheState).2.1).1 = demoSchemaB ∧
    (get_table_schema (Except.error "") (Except.error "") 3601 ("RPT_WOPS_TICKETS")
      (get_table_schema (Except.ok demoSchemaA2) (Except.error "") 3600
        ("RPT_WOPS_AGENT_PERFORMANCE") demoCacheState).2.1).2.2 = false := by
  decide

/-- C3 (amended): every cached entry shares the single epoch timestamp
with the 1-hour TTL, checked at each read: a read that finds the epoch
stale performs fresh introspection instead of serving its cached entry,
a read that finds it valid serves the cached entry untouched, and a
refresh resets the shared timestamp for all entries (without clearing the
other entries, which is what the counterexample exploits). -/
theorem cache_epoch_per_read (d : Except String Schema) (p : Except String (List String))
    (now : Nat) (tbl : String) (st : CacheState) :
    (is_cache_valid now st = false → (get_table_schema d p now tbl st).2.2 = true)
    ∧ (∀ sch, lookupA tbl st.schemaCache = some sch → is_cache_valid now st = true →
        get_table_schema d p now tbl st = (sch, st, false))
    ∧ (∀ sch, d = Except.ok sch →
        (get_table_schema d p now tbl st).2.2 = true →
        (get_table_schema d p now tbl st).2.1.cacheTimestamp = now) := by
  refine ⟨?_, ?_, ?_⟩
  · intro hstale
    unfold get_table_schema
    cases hl : lookupA tbl st.schemaCache with
    | none =>
      cases d with
      | ok sch => rfl
      | error e =>
        cases p with
        | ok cols => rfl
        | error e2 => rfl
    | some sch =>
      simp only [hstale, Bool.false_eq_true, if_false]
      cases d with
      | ok sch2 => rfl
      | error e =>
        cases p with
        | ok cols => rfl
        | error e2 => rfl
  · intro sch hl hval
    unfold get_table_schema
    rw [hl]
    dsimp only
    rw [if_pos hval]
  · intro sch hd hintro
    subst hd
    unfold get_table_schema at hintro ⊢
    cases hl : lookupA tbl st.schemaCache with
    | none => rfl
    | some sch2 =>
      dsimp only at hintro ⊢
      by_cases hval : is_cache_valid now st = true
      · rw [hl] at hintro
        simp [hval] at hintro
      · simp only [hval, if_false]
        rfl

/-- Witness for C3 (amended): at time 3600 the demo state is stale and a
read introspects; at time 10 it is valid and the cached entry is returned
unchanged; a successful refresh stamps the state with the read time. -/
theorem cache_epoch_per_read_witness :
    ((get_table_schema (Except.ok demoSchemaA2) (Except.error "") 3600
        ("RPT_WOPS_AGENT_PERFORMANCE") demoCacheState).2.2 = true) ∧
    (get_table_schema (Except.ok demoSchemaA2) (Except.error "") 10
        ("RPT_WOPS_AGENT_PERFORMANCE") demoCacheState = (demoSchemaA, demoCacheState, false)) ∧
    ((get_table_schema (Except.ok demoSchemaA2) (Except.error "") 3600
        ("RPT_WOPS_AGENT_PERFORMANCE") demoCacheState).2.1.cacheTimestamp = 3600) :=
  ⟨(cache_epoch_per_read (Except.ok demoSchemaA2) (Except.error "") 3600
      ("RPT_WOPS_AGENT_PERFORMANCE") demoCacheState).1 (by decide),
   (cache_epoch_per_read (Except.ok demoSchemaA2) (Except.error "") 10
      ("RPT_WOPS_AGENT_PERFORMANCE") demoCacheState).2.1 demoSchemaA (by decide) (by decide),
   (cache_epoch_per_read (Except.ok demoSchemaA2) (Except.error "") 3600
      ("RPT_WOPS_AGENT_PERFORMANCE") demoCacheState).2.2 demoSchemaA2 rfl (by decide)⟩

/-- C4 counterexample: when every per-table existence probe fails, the
refresh returns the empty list, not the fixed candidate list the claim
promises. -/
theorem get_available_tables_counterexample :
    (get_available_tables (fun _ => false) 0 initCacheState).1 = [] ∧
    (get_available_tables (fun _ => false) 0 initCacheState).1 ≠ allowed_tables := by
  decide

/-- C4 (amended): when every per-table existence probe fails during a
table-list refresh, `get_available_tables` returns (and caches) the empty
list; each probe failure is absorbed inside the per-table loop, and the
unverified candidate list is only returned by an outer handler that a
probe failure cannot reach. -/
theorem get_available_tables_total_failure (probe : String → Bool) (now : Nat)
    (st : CacheState)
    (hp : ∀ t ∈ allowed_tables, probe t = false)
    (hc : st.tableListCache = none ∨ is_cache_valid now st = false) :
    (get_available_tables probe now st).1 = [] := by
  have hfilter : allowed_tables.filter probe = [] := by
    rw [List.filter_eq_nil_iff]
    intro a ha
    simp [hp a ha]
  unfold get_available_tables
  rcases hc with hc | hc
  · rw [hc]
    simp [hfilter]
  · cases hl : st.tableListCache with
    | none => simp [hfilter]
    | some l =>
      simp only [hc, Bool.false_eq_true, if_false]
      simp [hfilter]

/-- Witness for C4 (amended): with an all-failing probe and an empty cache
the returned table list is empty. -/
theorem get_available_tables_total_failure_witness :
    (get_available_tables (fun _ => false) 5 initCacheState).1 = [] :=
  get_available_tables_total_failure (fun _ => false) 5 initCacheState
    (by intro t ht; rfl) (Or.inl rfl)

/-- C10: when the `DESCRIBE` introspection and the 1-row `SELECT *`
fallback probe both raise (both modelled as `Except.error`), a cache-missed
`get_table_schema` returns the empty metadata map with the state untouched
instead of propagating either exception (the function is total: the two
handlers absorb both failures). -/
theorem get_table_schema_total_failure (e1 e2 : String) (now : Nat) (tbl : String)
    (st : CacheState)
    (h : lookupA tbl st.schemaCache = none ∨ is_cache_valid now st = false) :
    get_table_schema (Except.error e1) (Except.error e2) now tbl st = ([], st, true) := by
  unfold get_table_schema
  rcases h with h | h
  · rw [h]
    rfl
  · cases hl : lookupA tbl st.schemaCache with
    | none => rfl
    | some sch =>
      simp only [h, Bool.false_eq_true, if_false]
      rfl

/-- Witness for C10: both introspection queries fail on a fresh cache and
the empty map comes back. -/
theorem get_table_schema_total_failure_witness :
    get_table_schema (Except.error ("describe failed")) (Except.error ("probe failed")) 0
      ("RPT_WOPS_TICKETS") initCacheState = ([], initCacheState, true) :=
  get_table_schema_total_failure ("describe failed") ("probe failed") 0
    ("RPT_WOPS_TICKETS") initCacheState (Or.inl rfl)

/-- C7: the ordered sampler picks its `ORDER BY` column by first matching
column names against the fixed priority pattern list (pattern-major, as in
the code): whenever some column name contains some pattern, a
pattern-matching column is selected; when no name matches, the choice is
exactly the first column whose declared type contains `DATE`, `TIMESTAMP`
or `TIME` (none when no such column exists); when no column is selected
the plain unordered limited sample statement is issued; and on the scenario
schema with columns `SOLVED_WEEK` and `AHT_MINUTES` it selects
`SOLVED_WEEK`. -/
theorem pick_order_column_spec :
    (∀ schema : Schema,
      ((∃ e ∈ schema, ∃ pat ∈ audit_patterns, containsSub (strUpper e.1) pat = true) →
        ∃ c, pickOrderColumn schema = some c ∧
          ∃ e ∈ schema, e.1 = c ∧ ∃ pat ∈ audit_patterns, containsSub (strUpper e.1) pat = true)
      ∧ ((∀ e ∈ schema, ∀ pat ∈ audit_patterns, containsSub (strUpper e.1) pat = false) →
        pickOrderColumn schema =
          (schema.find? (fun e =>
            date_type_keywords.any (fun d => containsSub (strUpper e.2.type) d))).map
            (fun e => e.1)))
    ∧ pickOrderColumn demoSchemaC = some ("SOLVED_WEEK")
    ∧ (∀ db sch tbl lim schema, pickOrderColumn schema = none →
        get_table_sample_ordered_query db sch tbl lim schema =
          "SELECT * FROM " ++ db ++ "." ++ sch ++ "." ++ tbl ++ " LIMIT " ++ toString lim) := by
  refine ⟨fun schema => ⟨?_, ?_⟩, by decide, ?_⟩
  · rintro ⟨e, he, pat, hpat, hc⟩
    have hfs : audit_patterns.findSome? (fun pat =>
        (schema.find? (fun e => containsSub (strUpper e.1) pat)).map (fun e => e.1)) ≠ none := by
      intro habs
      have h2 := List.findSome?_eq_none_iff.mp habs pat hpat
      have h1 : (schema.find? (fun e => containsSub (strUpper e.1) pat)).isSome :=
        List.find?_isSome.mpr ⟨e, he, hc⟩
      cases ho : schema.find? (fun e => containsSub (strUpper e.1) pat) with
      | none => rw [ho] at h1; simp at h1
      | some e2 => rw [ho] at h2; simp at h2
    obtain ⟨c, hcval⟩ := Option.ne_none_iff_exists'.mp hfs
    refine ⟨c, ?_, ?_⟩
    · rw [pickOrderColumn, hcval]
    · obtain ⟨pat2, hpat2, hfp⟩ := List.exists_of_findSome?_eq_some hcval
      cases ho : schema.find? (fun e => containsSub (strUpper e.1) pat2) with
      | none => rw [ho] at hfp; simp at hfp
      | some e2 =>
        rw [ho] at hfp
        simp only [Option.map_some'] at hfp
        rw [Option.some_inj] at hfp
        exact ⟨e2, List.mem_of_find?_eq_some ho, hfp, pat2, hpat2,
          by simpa using List.find?_some ho⟩
  · intro hall
    have hfn : audit_patterns.findSome? (fun pat =>
        (schema.find? (fun e => containsSub (strUpper e.1) pat)).map (fun e => e.1)) = none := by
      rw [List.findSome?_eq_none_iff]
      intro pat hpat
      have h : schema.find? (fun e => containsSub (strUpper e.1) pat) = none := by
        rw [List.find?_eq_none]
        intro e he
        simp [hall e he pat hpat]
      rw [h]
      rfl
    rw [pickOrderColumn, hfn]
  · intro db sch tbl lim schema h
    rw [get_table_sample_ordered_query, h]

/-- Witness for C7: the scenario schema exercises the name-pattern branch,
`demoSchemaD` (no pattern-named column) falls back to its timestamp-typed
column, and `demoSchemaE` (nothing matches) produces the plain limited
sample statement. -/
theorem pick_order_column_spec_witness :
    (∃ c, pickOrderColumn demoSchemaC = some c ∧
      ∃ e ∈ demoSchemaC, e.1 = c ∧
        ∃ pat ∈ audit_patterns, containsSub (strUpper e.1) pat = true) ∧
    pickOrderColumn demoSchemaD =
      (demoSchemaD.find? (fun e =>
        date_type_keywords.any (fun d => containsSub (strUpper e.2.type) d))).map
        (fun e => e.1) ∧
    get_table_sample_ordered_query ("ANALYTICS") ("DBT_PROD") ("RPT_WOPS_TICKETS") 10
        demoSchemaE =
      "SELECT * FROM " ++ "ANALYTICS" ++ "." ++ "DBT_PROD" ++ "." ++ "RPT_WOPS_TICKETS" ++
        " LIMIT " ++ toString 10 :=
  ⟨(pick_order_column_spec.1 demoSchemaC).1 (by decide),
   (pick_order_column_spec.1 demoSchemaD).2 (by decide),
   pick_order_column_spec.2.2 ("ANALYTICS") ("DBT_PROD") ("RPT_WOPS_TICKETS") 10
     demoSchemaE (by decide)⟩

/-- Every cleaned cell is JSON-safe: no non-finite float survives
`_clean_dataframe_for_json`. -/
theorem cleanCell_json_safe (dt : DType) (v : Val) : isJsonSafe (cleanCell dt v) = true := by
  cases dt with
  | dObj =>
    cases v with
    | vint n =>
      simp only [cleanCell, replaceInfCell, objCell]
      split <;> rfl
    | vstr s =>
      simp only [cleanCell, replaceInfCell, objCell]
      split <;> rfl
    | vnull => rfl
    | vfloat x =>
      cases x with
      | fnum q =>
        simp only [cleanCell, replaceInfCell, objCell]
        split <;> rfl
      | fnan => rfl
      | finf => rfl
      | fninf => rfl
  | dInt =>
    cases v with
    | vint n => rfl
    | vstr s => rfl
    | vnull => rfl
    | vfloat x => cases x <;> rfl
  | dFloat =>
    cases v with
    | vint n => rfl
    | vstr s => rfl
    | vnull => rfl
    | vfloat x => cases x <;> rfl

/-- C8 counterexample: a Python `None` in a text column is rendered by
`.astype(str)` as the string `None`, which the cleaning never replaces, so
this missing-value marker does not come out as an explicit null. -/
theorem clean_dataframe_counterexample :
    clean_dataframe_for_json [⟨"NOTES", DType.dObj, [Val.vnull]⟩] =
      [⟨"NOTES", DType.dObj, [Val.vstr ("None")]⟩] ∧
    Val.vstr ("None") ≠ Val.vnull := by decide

/-- C8 (amended): the cleaned result is always JSON-safe — serialising it
can emit no `NaN` or `Infinity` token; in numeric columns every infinity
and missing marker becomes an explicit null; in text columns a missing
marker becomes either an explicit null (float `nan`, and both infinities
via the `nan` replacement) or the literal string `None` (a Python `None`
rendered by `.astype(str)`). -/
theorem clean_dataframe_json_safe (df : DataFrame) :
    (∀ v ∈ dfCells (clean_dataframe_for_json df), isJsonSafe v = true)
    ∧ (∀ dt v, dt ≠ DType.dObj → isMissingMarker v = true → cleanCell dt v = Val.vnull)
    ∧ (∀ v, isMissingMarker v = true →
        cleanCell DType.dObj v = Val.vnull ∨ cleanCell DType.dObj v = Val.vstr ("None")) := by
  refine ⟨?_, ?_, ?_⟩
  · intro v hv
    simp only [dfCells, clean_dataframe_for_json, List.mem_flatMap, List.mem_map] at hv
    obtain ⟨col, ⟨col0, hcol0, rfl⟩, hvcol⟩ := hv
    simp only [List.mem_map] at hvcol
    obtain ⟨w, hw, rfl⟩ := hvcol
    exact cleanCell_json_safe _ _
  · intro dt v hdt hm
    cases dt with
    | dObj => exact absurd rfl hdt
    | dInt =>
      cases v with
      | vint n => simp [isMissingMarker] at hm
      | vstr s => simp [isMissingMarker] at hm
      | vnull => rfl
      | vfloat x =>
        cases x with
        | fnum q => simp [isMissingMarker] at hm
        | fnan => rfl
        | finf => rfl
        | fninf => rfl
    | dFloat =>
      cases v with
      | vint n => simp [isMissingMarker] at hm
      | vstr s => simp [isMissingMarker] at hm
      | vnull => rfl
      | vfloat x =>
        cases x with
        | fnum q => simp [isMissingMarker] at hm
        | fnan => rfl
        | finf => rfl
        | fninf => rfl
  · intro v hm
    cases v with
    | vint n => simp [isMissingMarker] at hm
    | vstr s => simp [isMissingMarker] at hm
    | vnull => exact Or.inr rfl
    | vfloat x =>
      cases x with
      | fnum q => simp [isMissingMarker] at hm
      | fnan => exact Or.inl rfl
      | finf => exact Or.inl rfl
      | fninf => exact Or.inl rfl

/-- Witness for C8 (amended): a positive infinity in a float column comes
out as an explicit null, and the null is JSON-safe. -/
theorem clean_dataframe_json_safe_witness :
    isJsonSafe Val.vnull = true ∧
    cleanCell DType.dFloat (Val.vfloat FNum.finf) = Val.vnull :=
  ⟨(clean_dataframe_json_safe [⟨"AHT_MINUTES", DType.dFloat, [Val.vfloat FNum.finf]⟩]).1
      Val.vnull (by decide),
   (clean_dataframe_json_safe []).2.1 DType.dFloat (Val.vfloat FNum.finf)
     (by decide) (by decide)⟩

/-- C9: on the 5-row scenario result with text column `REGION` and integer
column `COUNT`, under the question `show distribution by region`, chart
generation triggers, the emitted charts contain exactly one doughnut
chart, and that chart carries 5 labels (one per distinct region, at most
5); the other emitted chart is the bar comparison chart. -/
theorem distribution_chart_scenario :
    should_generate_charts ("show distribution by region") regionCountDF = true ∧
    ((generate_charts_from_data regionCountDF).filter
      (fun c => c.type == "doughnut")).length = 1 ∧
    (generate_charts_from_data regionCountDF).map
      (fun c => (c.type, c.labels.length)) = [("bar", 5), ("doughnut", 5)] := by
  decide

/-- C5 counterexample: for a response with no SQL, the orchestrator answer
carries no `success` key at all — its `success` field is absent (`none`),
not `false`. -/
theorem process_no_sql_counterexample :
    (parse_ai_response ("I cannot find a matching table for that question.")).sql_query =
      none ∧
    (process_after_parse (ExecOutcome.failed ("unused"))
      (parse_ai_response ("I cannot find a matching table for that question."))).success ≠
      some false := by
  decide

/-- C5 (amended): whenever the parsed CandidateQuery has no SQL text, the
answer carries the explanation, no result data and no row count, and has
no `success` and no `error` key at all (the absent flag is defaulted to
false only later, by the HTTP layer). -/
theorem process_no_sql_result (exec : ExecOutcome) (p : ParseResult)
    (h : p.sql_query = none) :
    (process_after_parse exec p).explanation = p.explanation ∧
    (process_after_parse exec p).data = none ∧
    (process_after_parse exec p).row_count = none ∧
    (process_after_parse exec p).success = none ∧
    (process_after_parse exec p).error = none := by
  simp [process_after_parse, h]

/-- Witness for C5 (amended): a concrete no-SQL response yields an answer
with an absent success flag. -/
theorem process_no_sql_result_witness :
    (process_after_parse (ExecOutcome.failed ("unused2"))
      (parse_ai_response ("I cannot answer that."))).success = none :=
  (process_no_sql_result (ExecOutcome.failed ("unused2"))
    (parse_ai_response ("I cannot answer that.")) (by decide)).2.2.2.1
